import Mathlib

/-!
Verification development for the game-data overlay engine of `cr/abc.py`
(classes `DataContainer` and `DataContainerHolder`).

The embedding below translates, field by field, the parts of the source
that the verified properties are about:

* `load_json_meta`  ↦ `DataContainer._load_json_meta` (abc.py lines 141-250):
  production-building dispatch, laboratory-level resolution (hero /
  barracks-family / pet-shop paths), the town-hall reverse lookup, the
  floor correction `max(lab_level, first_lab_level)`, and the
  `required_townhall_level` fallback.
* `load_json` / `load_json_aux` ↦ `DataContainerHolder._load_json`
  (abc.py lines 292-334): the skip rules, sequential id assignment,
  appending to `items` and registering in `item_lookup`.
* `holder_get` ↦ `DataContainerHolder.get` (lines 349-353),
  `holder_load` ↦ `DataContainerHolder.load` (lines 336-347).
* `mk_instance`, `inst_eq`, `hash_key` ↦ `DataContainer.__init__`,
  `__eq__`, `__hash__` (lines 109-138).

Machine-level conventions: JSON integer fields are `Nat`; a field that
Python's `dict.get` may report as `None` is `Option _`.  A Python
exception escaping `_load_json_meta` (the `ValueError` of the
single-element unpack at line 188/205, or an `AttributeError`/`TypeError`
from calling a method on `None`) is modelled as `Except.error`; the
distinction between the unpack `ValueError` (which reports only the
number of unpacked values) and the other crashes is kept in `LoadError`.

Helpers imported by abc.py from modules that are not part of the sources
(`cr/utils.py`, `cr/miscmodels.py`, `cr/enums.py`) are modelled from the
spec where they matter and are marked as such: `try_enum_stat`
(StatSeries construction), the case-insensitive lookup of
`CaseInsensitiveDict`, and `PETS_ORDER` (kept as an explicit parameter
`po`, since only membership of a unit's name in that list is relevant).
-/

/-- One per-level block of a unit's static definition (the values behind
the numeric keys `"1"`, `"2"`, … of the unit's JSON object), restricted
to the fields read by the laboratory/town-hall resolution:
`LaboratoryLevel` and `RequiredTownHallLevel`.  A field absent from the
block is `none` (Python `dict.get` → `None`). -/
structure LevelBlock where
  laboratoryLevel : Option Nat := none
  requiredTownHallLevel : Option Nat := none
  deriving Repr, DecidableEq

/-- The top-level fields of one unit's static JSON definition that
`_load_json_meta` and the `_load_json` skip rules read.  `levels` lists
the per-level blocks in level order: index `i` holds the block for the
numeric key `str (i+1)`, so `levels.head?` is Python's
`json_meta.get("1")`. -/
structure JsonMeta where
  tid : Option String := none
  deprecated : Bool := false
  disableProduction : Bool := false
  productionBuilding : Option String := none
  barrackLevel : Option Nat := none
  levels : List LevelBlock := []
  deriving Repr, DecidableEq

/-- The static building-unlock table (`static/buildings.json`): for each
production-building identifier, the per-building-level blocks, of which
only the `TownHallLevel` field is read (`none` models the field being
absent, in which case the source defaults it to `0`). -/
abbrev BuildingTable := List (String × List (Nat × Option Nat))

/-- The caller-supplied `lab_to_townhall` dict: ordered (lab level,
town-hall level) pairs. -/
abbrev LabToTownhall := List (Nat × Nat)

/-- A Python exception escaping `_load_json_meta`.
`unpackMismatch n` is the `ValueError` raised by the single-element
destructure `[first_lab_level] = [...]` when the filtered list has
`n ≠ 1` elements; its payload is the element count, which is all the
Python error message carries (no unit name, no town-hall level).
`missingKey` covers the `AttributeError`/`KeyError`/`TypeError` crashes
from indexing a missing dict key or calling a method on `None`. -/
inductive LoadError where
  | unpackMismatch (n : Nat)
  | missingKey
  deriving Repr, DecidableEq

deriving instance DecidableEq for Except

/-- Association-list lookup with string keys (a Python `dict[str]`). -/
def str_lookup (m : List (String × α)) (k : String) : Option α :=
  (m.find? (fun p => p.1 == k)).map (·.2)

/-- Association-list lookup with integer keys (a Python dict keyed by
stringified level numbers, accessed as `d.get(str(n))`). -/
def nat_lookup (m : List (Nat × α)) (k : Nat) : Option α :=
  (m.find? (fun p => p.1 == k)).map (·.2)

/-- The six identifiers tested by
`production_building in ("SiegeWorkshop", "Spell Forge",
"Mini Spell Factory", "Dark Elixir Barrack", "Barrack", "Barrack2")`
(abc.py lines 178-179). -/
def barracks_family : List String :=
  ["SiegeWorkshop", "Spell Forge", "Mini Spell Factory",
   "Dark Elixir Barrack", "Barrack", "Barrack2"]

/-- Python truthiness of the `ProductionBuilding` value: `None` and the
empty string are falsy. -/
def pb_truthy (pb : Option String) : Bool :=
  !(pb.getD "" == "")

/-- The value of `production_building` after the `if/elif` chain of
abc.py lines 155-167: the chain's five explicit building matches leave
it unchanged, and otherwise (`elif name in PETS_ORDER`) it is replaced
by `"Pet Shop"` when the unit's name is in the pets list.  (`"Barrack2"`
is not among the five, so it too can be replaced for a pet-named unit.) -/
def effective_building (po : List String) (name : String) (pb : Option String) :
    Option String :=
  if pb == some "Barrack" || pb == some "Dark Elixir Barrack"
      || pb == some "SiegeWorkshop" || pb == some "Spell Forge"
      || pb == some "Mini Spell Factory" then pb
  else if po.contains name then some "Pet Shop"
  else pb

/-- `buildings.get(b).get(str(lvl)).get("TownHallLevel", 0)`
(abc.py lines 186 and 202): a missing building or missing building-level
block makes the intermediate value `None` and the subsequent `.get` call
raise (`missingKey`); a present block with no `TownHallLevel` field
defaults to `0`. -/
def building_th (b : BuildingTable) (bld : String) (lvl : Nat) :
    Except LoadError Nat :=
  match str_lookup b bld with
  | none => .error .missingKey
  | some tbl =>
    match nat_lookup tbl lvl with
    | none => .error .missingKey
    | some th => .ok (th.getD 0)

/-- The reverse lookup
`[first_lab_level] = [lab for lab, th in lab_to_townhall.items() if th == min_th]`
(abc.py lines 188 and 205): succeeds only when exactly one laboratory
level maps to the target town-hall level, and otherwise raises the
unpack `ValueError` carrying only the match count. -/
def reverse_lookup (lt : LabToTownhall) (th : Nat) : Except LoadError Nat :=
  match (lt.filter (fun p => p.2 == th)).map (·.1) with
  | [l] => .ok l
  | ms => .error (.unpackMismatch ms.length)

/-- The floor computation shared by the barracks-family path with a
truthy `BarrackLevel`: building level → required town-hall level →
unique laboratory level (abc.py lines 186-188). -/
def floor_barracks (b : BuildingTable) (lt : LabToTownhall)
    (bld : String) (bl : Nat) : Except LoadError Nat := do
  let th ← building_th b bld bl
  reverse_lookup lt th

/-- The verbatim per-level `LaboratoryLevel` column
`[json_meta.get(level).get("LaboratoryLevel") for level in levels_available]`
(abc.py lines 175 and 183). -/
def raw_labs (meta : JsonMeta) : List (Option Nat) :=
  meta.levels.map (·.laboratoryLevel)

/-- The same column with the default of abc.py line 192
(`.get("LaboratoryLevel", 1)`). -/
def raw_labs_d1 (meta : JsonMeta) : List Nat :=
  meta.levels.map (fun blk => blk.laboratoryLevel.getD 1)

/-- The floor-corrected laboratory series of the barracks-family path
(abc.py lines 191-193): `max(lab_level, first_lab_level)` over the
defaulted column. -/
def floored_labs (meta : JsonMeta) (floor : Nat) : List (Option Nat) :=
  (raw_labs_d1 meta).map (fun r => some (max r floor))

/-- The floor-corrected laboratory series of the pet-shop path
(abc.py lines 208-210): here the column is read without a default
(line 209), so a level block with no `LaboratoryLevel` makes
`max(None, first_lab_level)` raise a `TypeError`. -/
def pet_labs (floor : Nat) : List LevelBlock → Except LoadError (List (Option Nat))
  | [] => .ok []
  | blk :: rest =>
    match blk.laboratoryLevel with
    | none => .error .missingKey
    | some l => do
      let tail ← pet_labs floor rest
      .ok (some (max l floor) :: tail)

/-- The pet-shop floor computation (abc.py lines 199-205):
`min_prod_unit_level` is the level-1 `LaboratoryLevel` (a missing `"1"`
block, or a missing field — which turns the building lookup key into
`str(None)`, never a numeric key — crashes), mapped through the
`"Pet Shop"` unlock table and the town-hall reverse lookup. -/
def floor_pet (b : BuildingTable) (lt : LabToTownhall) (meta : JsonMeta) :
    Except LoadError Nat := do
  match meta.levels.head? with
  | none => .error .missingKey
  | some blk1 =>
    match blk1.laboratoryLevel with
    | none => .error .missingKey
    | some minLvl => do
      let th ← building_th b "Pet Shop" minLvl
      reverse_lookup lt th

/-- Modelled from the spec: `try_enum(UnitStat, values)` (`UnitStat` in
`cr/utils.py` and `try_enum` in `cr/miscmodels.py` are not among the
sources).  Per §4.1 of the spec, a value list whose entries are all
undefined yields an absent series rather than a series of nulls;
otherwise the series holds the values unchanged, 1-indexed by level. -/
def try_enum_stat (vs : List (Option Nat)) : Option (List (Option Nat)) :=
  if vs.all (·.isNone) then none else some vs

/-- `StatSeries.at`: 1-indexed lookup into a series, `none` outside
`[1, length]` (the spec's `OutOfRange`). -/
def series_at (vs : List (Option Nat)) (i : Nat) : Option (Option Nat) :=
  if 1 ≤ i ∧ i ≤ vs.length then vs.get? (i - 1) else none

/-- Python truthiness test `any(required_townhall_levels)` (abc.py line
240): true when some entry is present and non-zero. -/
def any_truthy (vs : List (Option Nat)) : Bool :=
  vs.any (fun o => o.getD 0 != 0)

/-- The class-level attributes of the per-unit synthesized class that
this development tracks.  `labLevel`/`requiredThLevel` are `none` both
for an absent series (`try_enum` of an all-undefined column) and for the
attribute never being assigned at all (the early `return` of abc.py line
213 for an unrecognized production building); the two situations are
told apart by `isLoaded`, which only the full path sets (line 249). -/
structure Template where
  id : Nat
  name : String
  labLevel : Option (List (Option Nat)) := none
  requiredThLevel : Option (List (Option Nat)) := none
  isLoaded : Bool := false
  deriving Repr, DecidableEq

/-- The tail of `_load_json_meta` shared by every non-early-return path
(abc.py lines 215 and 239-240): store the laboratory series, and define
`required_th_level` as the per-level `RequiredTownHallLevel` column when
`any` of its entries is truthy and as the computed laboratory series
otherwise. -/
def finish_template (id : Nat) (name : String) (labs : List (Option Nat))
    (meta : JsonMeta) : Template :=
  let reqRaw := meta.levels.map (·.requiredTownHallLevel)
  { id := id
    name := name
    labLevel := try_enum_stat labs
    requiredThLevel := try_enum_stat (if any_truthy reqRaw then reqRaw else labs)
    isLoaded := true }

/-- `DataContainer._load_json_meta` (abc.py lines 141-250), restricted to
the attributes this development tracks.  Control flow, in source order:
the `if/elif` chain fixing `production_building` (`effective_building`);
the hero path for a falsy building (lines 174-175); the barracks-family
path, falling back to the verbatim column when `BarrackLevel` is falsy
(lines 180-193); the pet-shop path (lines 198-210); and the bare
`return` for any other truthy building (lines 212-213), which leaves the
stat attributes unset but keeps `id` and `name` (set unconditionally at
lines 143-144). -/
def load_json_meta (po : List String) (b : BuildingTable) (lt : LabToTownhall)
    (meta : JsonMeta) (id : Nat) (name : String) : Except LoadError Template :=
  let pb := effective_building po name meta.productionBuilding
  if !pb_truthy pb then
    .ok (finish_template id name (raw_labs meta) meta)
  else if barracks_family.contains (pb.getD "") then
    match meta.barrackLevel with
    | none => .ok (finish_template id name (raw_labs meta) meta)
    | some 0 => .ok (finish_template id name (raw_labs meta) meta)
    | some (bl + 1) => do
      let floor ← floor_barracks b lt (pb.getD "") (bl + 1)
      .ok (finish_template id name (floored_labs meta floor) meta)
  else if pb == some "Pet Shop" then do
    let floor ← floor_pet b lt meta
    let labs ← pet_labs floor meta.levels
    .ok (finish_template id name labs meta)
  else
    .ok { id := id, name := name }

/-- One entry of the raw balance-data file: its internal key
(`supercell_name`) and its metadata block, in file order. -/
structure RawEntry where
  supercellName : String
  meta : JsonMeta
  deriving Repr, DecidableEq

/-- The fixed pet-exclusion list of abc.py line 316. -/
def IGNORED_PETS : List String := ["Unused", "PhoenixEgg"]

/-- Character-list containment used to model Python's
`"Tutorial" in supercell_name`: `starts_with ns hs` is "`hs` starts with
`ns`", and `has_sub` slides that test over every suffix. -/
def starts_with : List Char → List Char → Bool
  | [], _ => true
  | _ :: _, [] => false
  | a :: as, b :: bs => a == b && starts_with as bs

/-- Substring test over the character lists of the two strings. -/
def has_sub (needle : List Char) : List Char → Bool
  | [] => starts_with needle []
  | c :: rest => starts_with needle (c :: rest) || has_sub needle rest

/-- `"Tutorial" in supercell_name` (abc.py line 304). -/
def str_contains (hay needle : String) : Bool :=
  has_sub needle.toList hay.toList

/-- The skip rules of `_load_json` (abc.py lines 300-318), in source
order: falsy `TID`; `"Tutorial"` occurring in the internal name;
`DisableProduction` truthy unless the loaded file is the pets file
(`"pets" in str(self.FILE_PATH)`, passed here as `petsFile`);
`Deprecated` truthy; and, for the pets file, the fixed exclusion list. -/
def skip_entry (petsFile : Bool) (e : RawEntry) : Bool :=
  (match e.meta.tid with | none => true | some s => s == "")
  || str_contains e.supercellName "Tutorial"
  || (e.meta.disableProduction && !petsFile)
  || e.meta.deprecated
  || (petsFile && IGNORED_PETS.contains e.supercellName)

/-- ASCII lower-casing of one character (the key normalisation of the
spec-modelled `CaseInsensitiveDict`). -/
def char_lower (c : Char) : Char :=
  if 'A' ≤ c && c ≤ 'Z' then Char.ofNat (c.toNat + 32) else c

/-- Lower-casing of a string, character by character. -/
def to_lower (s : String) : String := ⟨s.data.map char_lower⟩

/-- The registry state mutated by `_load_json`: the ordered `items`
collection and the `item_lookup` mapping.  `item_lookup` is a
`CaseInsensitiveDict` (in `cr/utils.py`, not among the sources);
modelled from the spec (§9) as a lower-cased-key mapping with
latest-wins overwrite, realised as a prepend-and-first-match
association list. -/
structure Registry where
  items : List Template
  lookup : List (String × Template)
  deriving Repr, DecidableEq

/-- The empty registry state. -/
def empty_registry : Registry := { items := [], lookup := [] }

/-- `self.items.append(new_item); self.item_lookup[new_item.name] = new_item`
(abc.py lines 331-332). -/
def reg_add (acc : Registry) (t : Template) : Registry :=
  { items := acc.items ++ [t]
    lookup := (to_lower t.name, t) :: acc.lookup }

/-- Case-insensitive lookup in `item_lookup` (first match wins, which
together with `reg_add`'s prepend gives the latest-wins overwrite). -/
def ci_get (m : List (String × Template)) (k : String) : Option Template :=
  (m.find? (fun p => p.1 == to_lower k)).map (·.2)

/-- Building one surviving entry (abc.py lines 320-329): resolve the
display name `english_aliases[meta.get("TID")]` (a missing alias is a
`KeyError`) and run `_load_json_meta`.  Only called on entries that
passed the skip rules, so `tid` is some non-empty string there. -/
def entry_load (po : List String) (b : BuildingTable)
    (al : List (String × String)) (lt : LabToTownhall)
    (id : Nat) (e : RawEntry) : Except LoadError Template :=
  match e.meta.tid with
  | none => .error .missingKey
  | some tname =>
    match str_lookup al tname with
    | none => .error .missingKey
    | some name => load_json_meta po b lt e.meta id name

/-- The entry loop of `_load_json` (abc.py lines 296-332).  The Python
loop mutates `self.items`/`self.item_lookup` in place and has no
exception handler, so an error raised while building one entry leaves
everything registered so far in place and abandons the rest of the
file; the result is therefore the registry state reached together with
the escaped error, if any.  `id` increments only for built entries. -/
def load_json_aux (po : List String) (b : BuildingTable) (petsFile : Bool)
    (al : List (String × String)) (lt : LabToTownhall) :
    Nat → Registry → List RawEntry → Registry × Option LoadError
  | _, acc, [] => (acc, none)
  | id, acc, e :: es =>
    if skip_entry petsFile e then
      load_json_aux po b petsFile al lt id acc es
    else
      match entry_load po b al lt id e with
      | .error err => (acc, some err)
      | .ok t => load_json_aux po b petsFile al lt (id + 1) (reg_add acc t) es

/-- `DataContainerHolder._load_json` from a fresh holder: the loop over
the file's entries starting at `id = 2000` (abc.py line 296). -/
def load_json (po : List String) (b : BuildingTable) (petsFile : Bool)
    (al : List (String × String)) (lt : LabToTownhall)
    (entries : List RawEntry) : Registry × Option LoadError :=
  load_json_aux po b petsFile al lt 2000 empty_registry entries

/-- `DataContainerHolder.get` (abc.py lines 349-353): case-insensitive
name lookup, `None` (here `none`) on a miss instead of an exception. -/
def holder_get (reg : Registry) (name : String) : Option Template :=
  ci_get reg.lookup name

/-- One player-reported unit datum, as consumed by
`DataContainer.__init__` (abc.py lines 109-122): `name`, `level`,
`maxLevel`, `village` and the optional `superTroopIsActive` flag. -/
structure InstanceData where
  name : String
  level : Nat
  maxLevel : Nat
  village : String
  superTroopIsActive : Option Bool := none
  deriving Repr, DecidableEq

/-- A `DataContainer` instance: the synthesized class it was built from
(`cls`), the per-instance fields set by `__init__`, and the private
copies (`__name` etc., lines 118-122) that `__hash__` reads. -/
structure UnitInstance where
  cls : Template
  name : String
  level : Nat
  max_level : Nat
  village : String
  is_active : Option Bool
  townhall : Nat
  snapName : String
  snapLevel : Nat
  snapVillage : String
  snapActive : Option Bool
  deriving Repr, DecidableEq

/-- `DataContainer.__init__` (abc.py lines 109-122). -/
def mk_instance (cls : Template) (data : InstanceData) (townhall : Nat) :
    UnitInstance :=
  { cls := cls
    name := data.name
    level := data.level
    max_level := data.maxLevel
    village := data.village
    is_active := data.superTroopIsActive
    townhall := townhall
    snapName := data.name
    snapLevel := data.level
    snapVillage := data.village
    snapActive := data.superTroopIsActive }

/-- `DataContainer.__eq__` (abc.py lines 133-135): comparison over
`(name, level, village, is_active)`. -/
def inst_eq (a b : UnitInstance) : Bool :=
  a.name == b.name && a.level == b.level && a.village == b.village
    && a.is_active == b.is_active

/-- `DataContainer.__hash__` (abc.py lines 137-138): Python hashes the
tuple of the private copies; since `hash` is a deterministic function of
that tuple, the tuple itself is the model of the hash value. -/
def hash_key (a : UnitInstance) : String × Nat × String × Option Bool :=
  (a.snapName, a.snapLevel, a.snapVillage, a.snapActive)

/-- `DataContainerHolder.load` (abc.py lines 336-347): look the datum's
name up in `item_lookup` when `load_game_data` is true, fall back to
`default or self.data_object` on a `KeyError` (or always, when game data
is not loaded), and instantiate the chosen class on the datum. -/
def holder_load (reg : Registry) (data : InstanceData) (townhall : Nat)
    (defaultT : Option Template) (dataObject : Template)
    (loadGameData : Bool) : UnitInstance :=
  let item :=
    if loadGameData then
      match holder_get reg data.name with
      | some it => it
      | none => defaultT.getD dataObject
    else defaultT.getD dataObject
  mk_instance item data townhall

/-- Series lookup on a template's laboratory series: the spec's
`laboratory_level.at(i)` (outer `none` = absent series or out of
range). -/
def lab_at (t : Template) (i : Nat) : Option (Option Nat) :=
  match t.labLevel with
  | none => none
  | some vs => series_at vs i

/-- Splitting `finish_template`'s `required_th_level` over the truthiness
test of abc.py line 240. -/
theorem finish_template_required (id : Nat) (name : String)
    (labs : List (Option Nat)) (meta : JsonMeta) :
    (finish_template id name labs meta).requiredThLevel =
      (if any_truthy (meta.levels.map (·.requiredTownHallLevel)) then
        try_enum_stat (meta.levels.map (·.requiredTownHallLevel))
      else (finish_template id name labs meta).labLevel) := by
  by_cases h : any_truthy (meta.levels.map (·.requiredTownHallLevel)) <;>
    simp [finish_template, h]

/-- A successful pet-shop laboratory loop (abc.py lines 208-210) produces
exactly the floor-corrected column (and in particular every per-level
`LaboratoryLevel` was present, making the line-192 default vacuous). -/
theorem pet_labs_eq_floored (floor : Nat) :
    ∀ (blocks : List LevelBlock) (labs : List (Option Nat)),
      pet_labs floor blocks = .ok labs →
      labs = blocks.map (fun blk => some (max (blk.laboratoryLevel.getD 1) floor)) := by
  intro blocks
  induction blocks with
  | nil =>
    intro labs h
    simp [pet_labs] at h
    simp [h.symm]
  | cons blk rest ih =>
    intro labs h
    rw [pet_labs] at h
    cases hb : blk.laboratoryLevel with
    | none => rw [hb] at h; cases h
    | some l =>
      rw [hb] at h
      cases hr : pet_labs floor rest with
      | error err => rw [hr] at h; cases h
      | ok tail =>
        rw [hr] at h
        simp only [Bind.bind, Except.bind, Except.ok.injEq] at h
        simp [h.symm, hb, ih tail hr]

/-- C9: two `DataContainer` instances built (via `__init__`) from data
with equal `(name, level, village, superTroopIsActive)` tuples compare
equal under `__eq__` and have identical hash inputs, whatever template
class, town-hall argument or registry either was built from. -/
theorem instance_eq_hash_of_observable
    (d1 d2 : InstanceData) (t1 t2 : Template) (th1 th2 : Nat)
    (hn : d1.name = d2.name) (hl : d1.level = d2.level)
    (hv : d1.village = d2.village)
    (ha : d1.superTroopIsActive = d2.superTroopIsActive) :
    inst_eq (mk_instance t1 d1 th1) (mk_instance t2 d2 th2) = true ∧
    hash_key (mk_instance t1 d1 th1) = hash_key (mk_instance t2 d2 th2) := by
  simp [inst_eq, mk_instance, hash_key, hn, hl, hv, ha]

/-- C9 witness: the spec's Knight scenario on two distinct templates. -/
theorem instance_eq_hash_of_observable_witness :
    inst_eq
      (mk_instance { id := 2000, name := "Knight" }
        { name := "Knight", level := 9, maxLevel := 14, village := "home",
          superTroopIsActive := some false } 11)
      (mk_instance { id := 2001, name := "Knight" }
        { name := "Knight", level := 9, maxLevel := 14, village := "home",
          superTroopIsActive := some false } 9) = true ∧
    hash_key
      (mk_instance { id := 2000, name := "Knight" }
        { name := "Knight", level := 9, maxLevel := 14, village := "home",
          superTroopIsActive := some false } 11) =
    hash_key
      (mk_instance { id := 2001, name := "Knight" }
        { name := "Knight", level := 9, maxLevel := 14, village := "home",
          superTroopIsActive := some false } 9) :=
  instance_eq_hash_of_observable _ _ _ _ _ _ rfl rfl rfl rfl

/-- C8: when the datum's name misses `item_lookup`, `load` instantiates
the caller-supplied fallback class (or, with no fallback, the holder's
`data_object`) on the datum, so the instance carries the datum's level,
max level, village and super-troop flag, and no exception escapes. -/
theorem materialize_fallback_instance
    (reg : Registry) (d : InstanceData) (th : Nat)
    (defaultT : Option Template) (dataObject : Template)
    (hmiss : holder_get reg d.name = none) :
    holder_load reg d th defaultT dataObject true
      = mk_instance (defaultT.getD dataObject) d th ∧
    (holder_load reg d th defaultT dataObject true).cls = defaultT.getD dataObject ∧
    (holder_load reg d th defaultT dataObject true).level = d.level ∧
    (holder_load reg d th defaultT dataObject true).max_level = d.maxLevel ∧
    (holder_load reg d th defaultT dataObject true).village = d.village ∧
    (holder_load reg d th defaultT dataObject true).is_active = d.superTroopIsActive := by
  simp [holder_load, holder_get] at hmiss ⊢
  simp [hmiss, mk_instance]

/-- C8 witness: an unknown unit name against an empty registry falls
back to the supplied template. -/
theorem materialize_fallback_instance_witness :
    holder_load empty_registry
        { name := "Brand New Troop", level := 3, maxLevel := 5,
          village := "home" } 10
        (some { id := 1, name := "Fallback" }) { id := 0, name := "Base" } true
      = mk_instance { id := 1, name := "Fallback" }
          { name := "Brand New Troop", level := 3, maxLevel := 5,
            village := "home" } 10 :=
  (materialize_fallback_instance empty_registry
    { name := "Brand New Troop", level := 3, maxLevel := 5, village := "home" }
    10 (some { id := 1, name := "Fallback" }) { id := 0, name := "Base" }
    (by decide)).1

/-- C10: a barracks-family unit whose `BarrackLevel` is absent or is the
falsy value `0` takes the special-troop fallback of abc.py lines
182-183: the laboratory series is the verbatim per-level column, the
result does not depend on the buildings table or the lab↔town-hall map
(no lookup, reverse mapping or floor correction happens), and a
`BarrackLevel` of `0` behaves exactly as if the field were absent. -/
theorem barrack_level_falsy_like_absent
    (po : List String) (meta : JsonMeta) (id : Nat) (name : String)
    (bld : String)
    (hpb : effective_building po name meta.productionBuilding = some bld)
    (hfam : bld ∈ barracks_family)
    (hbl : meta.barrackLevel = none ∨ meta.barrackLevel = some 0) :
    (∀ (b' : BuildingTable) (lt' : LabToTownhall),
      load_json_meta po b' lt' meta id name
        = .ok (finish_template id name (raw_labs meta) meta)) ∧
    (∀ (b' : BuildingTable) (lt' : LabToTownhall),
      load_json_meta po b' lt' { meta with barrackLevel := none } id name
        = load_json_meta po b' lt' meta id name) := by
  have htr : pb_truthy (some bld) = true := by
    fin_cases hfam <;> decide
  have hcon : barracks_family.contains bld = true := by
    fin_cases hfam <;> decide
  constructor
  · intro b' lt'
    rcases hbl with hbl | hbl <;>
      simp [load_json_meta, hpb, htr, hcon, hfam, hbl]
  · intro b' lt'
    have hpb' : effective_building po name
        ({ meta with barrackLevel := none } : JsonMeta).productionBuilding
        = some bld := hpb
    rcases hbl with hbl | hbl <;>
      simp [load_json_meta, hpb, hpb', htr, hcon, hfam, hbl, raw_labs,
        finish_template]

/-- C10 witness: an elixir troop with `BarrackLevel = 0` resolves
verbatim on concrete tables. -/
theorem barrack_level_falsy_like_absent_witness :
    load_json_meta [] [("Barrack", [(1, some 2)])] [(1, 2)]
        { productionBuilding := some "Barrack", barrackLevel := some 0,
          levels := [{ laboratoryLevel := some 4 }] } 2000 "Wizard"
      = .ok (finish_template 2000 "Wizard"
          (raw_labs { productionBuilding := some "Barrack",
                      barrackLevel := some 0,
                      levels := [{ laboratoryLevel := some 4 }] })
          { productionBuilding := some "Barrack", barrackLevel := some 0,
            levels := [{ laboratoryLevel := some 4 }] }) :=
  (barrack_level_falsy_like_absent [] _ 2000 "Wizard" "Barrack"
    (by decide) (by decide) (Or.inr rfl)).1 _ _

/-- C4 (amended): a unit whose static definition has a falsy
`ProductionBuilding` *and whose name is not in the pets name-list* is
treated as a hero (abc.py lines 174-175): its laboratory series is the
verbatim per-level `LaboratoryLevel` column (wrapped by the series
constructor, which turns an all-undefined column into an absent series),
independent of the buildings table and the lab↔town-hall map — no
unlock-table lookup, reverse mapping or floor correction happens. -/
theorem absent_building_nonpet_verbatim
    (po : List String) (meta : JsonMeta) (id : Nat) (name : String)
    (hpb : pb_truthy meta.productionBuilding = false)
    (hpet : po.contains name = false) :
    (∀ (b' : BuildingTable) (lt' : LabToTownhall),
      load_json_meta po b' lt' meta id name
        = .ok (finish_template id name (raw_labs meta) meta)) ∧
    (finish_template id name (raw_labs meta) meta).labLevel
      = try_enum_stat (raw_labs meta) := by
  have hcases : meta.productionBuilding = none ∨ meta.productionBuilding = some "" := by
    cases h : meta.productionBuilding with
    | none => exact Or.inl rfl
    | some s =>
      right
      rw [h] at hpb
      simp [pb_truthy] at hpb
      simp [hpb]
  have hpet' : ¬ (name ∈ po) := by simpa using hpet
  refine ⟨fun b' lt' => ?_, rfl⟩
  rcases hcases with h | h <;>
    simp [load_json_meta, effective_building, h, hpet', pb_truthy]

/-- C4 witness: a hero entry (no production building, name outside the
pets list) on concrete tables. -/
theorem absent_building_nonpet_verbatim_witness :
    load_json_meta ["LASSI"] [("Pet Shop", [(1, some 5)])] [(3, 5)]
        { levels := [{ laboratoryLevel := some 1 },
                     { laboratoryLevel := some 2 }] } 2000 "Barbarian King"
      = .ok (finish_template 2000 "Barbarian King"
          (raw_labs { levels := [{ laboratoryLevel := some 1 },
                                 { laboratoryLevel := some 2 }] })
          { levels := [{ laboratoryLevel := some 1 },
                       { laboratoryLevel := some 2 }] }) :=
  (absent_building_nonpet_verbatim ["LASSI"]
    { levels := [{ laboratoryLevel := some 1 }, { laboratoryLevel := some 2 }] }
    2000 "Barbarian King" (by decide) (by decide)).1 _ _

/-- C4 counterexample: a unit with *no* production building whose name
is in the pets list is not treated as a hero — the pet-shop path runs
and floor-corrects its series.  Here the level-1 `LaboratoryLevel` is
`1`, pet-shop level 1 requires town-hall 5, laboratory level 3 maps to
town-hall 5, so the stored series is `[3]`, not the verbatim `[1]`. -/
theorem absent_building_pet_floor_cex :
    load_json_meta ["LASSI"] [("Pet Shop", [(1, some 5)])] [(3, 5)]
        { levels := [{ laboratoryLevel := some 1 }] } 2000 "LASSI"
      = .ok { id := 2000, name := "LASSI", labLevel := some [some 3],
              requiredThLevel := some [some 3], isLoaded := true } ∧
    try_enum_stat (raw_labs { levels := [{ laboratoryLevel := some 1 }] })
      = some [some 1] ∧
    (some [some 3] : Option (List (Option Nat))) ≠ some [some 1] := by
  refine ⟨by decide, by decide, by decide⟩


/-- Inverting a successful `Except` bind. -/
theorem except_bind_ok {ε α β : Type} {x : Except ε α} {f : α → Except ε β}
    {r : β} (h : x >>= f = .ok r) : ∃ a, x = .ok a ∧ f a = .ok r := by
  cases x with
  | error e => simp [Bind.bind, Except.bind] at h
  | ok a => exact ⟨a, rfl, by simpa [Bind.bind, Except.bind] using h⟩

/-- Every successful `_load_json_meta` result is either a fully built
template (`finish_template` on some laboratory column) or the partial
template of the early `return` at abc.py line 213. -/
theorem load_json_meta_ok_shape
    (po : List String) (b : BuildingTable) (lt : LabToTownhall)
    (meta : JsonMeta) (id : Nat) (name : String) (t : Template)
    (hok : load_json_meta po b lt meta id name = .ok t) :
    (∃ labs, t = finish_template id name labs meta) ∨
      t = { id := id, name := name } := by
  simp only [load_json_meta] at hok
  repeat' split at hok
  all_goals try obtain ⟨fl, hfl, hok⟩ := except_bind_ok hok
  all_goals try obtain ⟨labs, hlabs, hok⟩ := except_bind_ok hok
  all_goals simp only [Except.ok.injEq] at hok
  all_goals first
    | exact Or.inl ⟨_, hok.symm⟩
    | exact Or.inr hok.symm

/-- A column passing Python's `any(...)` test has a defined entry, so
the series constructor keeps it verbatim. -/
theorem try_enum_stat_of_any_truthy (vs : List (Option Nat))
    (h : any_truthy vs = true) : try_enum_stat vs = some vs := by
  rw [try_enum_stat, if_neg]
  intro hall
  simp only [any_truthy, List.any_eq_true] at h
  obtain ⟨x, hx, hne⟩ := h
  rw [List.all_eq_true] at hall
  have hx2 := hall x hx
  cases x with
  | none => simp at hne
  | some v => simp at hx2

/-- C6 (amended): for every fully built template,
`required_th_level` is the per-level `RequiredTownHallLevel` column
exactly when `any()` of its entries is truthy — i.e. at least one entry
is present *and non-zero* — and otherwise (all entries absent or zero)
it is the template's laboratory series itself (abc.py lines 239-240). -/
theorem required_th_truthy_mirror
    (po : List String) (b : BuildingTable) (lt : LabToTownhall)
    (meta : JsonMeta) (id : Nat) (name : String) (t : Template)
    (hok : load_json_meta po b lt meta id name = .ok t)
    (hload : t.isLoaded = true) :
    t.requiredThLevel =
      (if any_truthy (meta.levels.map (·.requiredTownHallLevel)) then
        some (meta.levels.map (·.requiredTownHallLevel))
      else t.labLevel) := by
  rcases load_json_meta_ok_shape po b lt meta id name t hok with ⟨labs, rfl⟩ | rfl
  · have main := finish_template_required id name labs meta
    by_cases h : any_truthy (meta.levels.map (·.requiredTownHallLevel))
    · rw [main, if_pos h, if_pos h, try_enum_stat_of_any_truthy _ h]
    · rw [main, if_neg h, if_neg h]
  · simp at hload

/-- C6 witness: a hero with an explicit (partially defined, truthy)
`RequiredTownHallLevel` column keeps that column verbatim. -/
theorem required_th_truthy_mirror_witness :
    Template.requiredThLevel
        { id := 2000, name := "Hound", labLevel := some [some 2, some 3],
          requiredThLevel := some [some 7, none], isLoaded := true }
      = (if any_truthy
            (List.map (fun blk : LevelBlock => blk.requiredTownHallLevel)
              [{ laboratoryLevel := some 2, requiredTownHallLevel := some 7 },
               { laboratoryLevel := some 3, requiredTownHallLevel := none }]) then
          some (List.map (fun blk : LevelBlock => blk.requiredTownHallLevel)
            [{ laboratoryLevel := some 2, requiredTownHallLevel := some 7 },
             { laboratoryLevel := some 3, requiredTownHallLevel := none }])
        else Template.labLevel
          { id := 2000, name := "Hound", labLevel := some [some 2, some 3],
            requiredThLevel := some [some 7, none], isLoaded := true }) :=
  required_th_truthy_mirror [] [] []
    { levels := [{ laboratoryLevel := some 2, requiredTownHallLevel := some 7 },
                 { laboratoryLevel := some 3, requiredTownHallLevel := none }] }
    2000 "Hound"
    { id := 2000, name := "Hound", labLevel := some [some 2, some 3],
      requiredThLevel := some [some 7, none], isLoaded := true }
    (by decide) (by decide)

/-- C6 counterexample: a hero whose only level has
`RequiredTownHallLevel = 0` — the column is present and non-empty, yet
`any([0])` is falsy, so the code stores the laboratory series `[3]`
instead of the explicit column `[0]`, falsifying the claim as stated. -/
theorem required_th_zero_values_cex :
    load_json_meta [] [] []
        { levels := [{ laboratoryLevel := some 3, requiredTownHallLevel := some 0 }] }
        2000 "Hero"
      = .ok { id := 2000, name := "Hero", labLevel := some [some 3],
              requiredThLevel := some [some 3], isLoaded := true } ∧
    (some [some 3] : Option (List (Option Nat))) ≠ some [some 0] := by
  refine ⟨by decide, by decide⟩

/-- C3 (amended): an entry that survives the skip rules but whose
(effective) production building is truthy and none of the recognized
identifiers hits the bare `return` of abc.py line 213 — yet
`_load_json`, which never inspects `_load_json_meta`'s result, still
appends the partially initialized template (stat series unset,
`is_loaded` never set) to `items` and registers it in `item_lookup`
under its resolved name. -/
theorem unrecognized_building_still_registered
    (po : List String) (b : BuildingTable) (pf : Bool)
    (al : List (String × String)) (lt : LabToTownhall)
    (id : Nat) (acc : Registry) (es : List RawEntry)
    (e : RawEntry) (tname name bld : String)
    (hskip : skip_entry pf e = false)
    (htid : e.meta.tid = some tname)
    (hal : str_lookup al tname = some name)
    (hpb : effective_building po name e.meta.productionBuilding = some bld)
    (htr : bld ≠ "")
    (hfam : bld ∉ barracks_family)
    (hpet : bld ≠ "Pet Shop") :
    load_json_aux po b pf al lt id acc (e :: es)
      = load_json_aux po b pf al lt (id + 1)
          (reg_add acc { id := id, name := name }) es ∧
    (reg_add acc { id := id, name := name }).items
      = acc.items ++
          [{ id := id, name := name, labLevel := none,
             requiredThLevel := none, isLoaded := false }] ∧
    (reg_add acc { id := id, name := name }).lookup
      = (to_lower name,
          { id := id, name := name, labLevel := none,
            requiredThLevel := none, isLoaded := false }) :: acc.lookup := by
  have hmeta : load_json_meta po b lt e.meta id name
      = .ok { id := id, name := name } := by
    simp [load_json_meta, hpb, pb_truthy, htr, hfam, hpet]
  refine ⟨?_, rfl, rfl⟩
  simp [load_json_aux, hskip, entry_load, htid, hal, hmeta]

/-- C3 witness: a concrete unrecognized building (`"Workshop"`, not in
the recognized set) on a surviving entry. -/
theorem unrecognized_building_still_registered_witness :
    load_json_aux [] [] false [("TID_W", "Wall Wrecker")] [] 2000
        empty_registry
        [{ supercellName := "Siege1",
           meta := { tid := some "TID_W", productionBuilding := some "Workshop",
                     levels := [{ laboratoryLevel := some 5 }] } }]
      = load_json_aux [] [] false [("TID_W", "Wall Wrecker")] [] 2001
          (reg_add empty_registry { id := 2000, name := "Wall Wrecker" }) [] :=
  (unrecognized_building_still_registered [] [] false
    [("TID_W", "Wall Wrecker")] [] 2000 empty_registry []
    { supercellName := "Siege1",
      meta := { tid := some "TID_W", productionBuilding := some "Workshop",
                levels := [{ laboratoryLevel := some 5 }] } }
    "TID_W" "Wall Wrecker" "Workshop"
    (by decide) (by decide) (by decide) (by decide) (by decide) (by decide)
    (by decide)).1

/-- C3 counterexample: loading a one-entry dataset whose unit has the
unrecognized production building `"Workshop"` — contrary to the claim,
after the load the (partially built) template *is* in the ordered
collection and *is* resolvable by name lookup. -/
theorem unrecognized_building_registered_cex :
    (load_json [] [] false [("TID_W", "Wall Wrecker")] []
        [{ supercellName := "Siege1",
           meta := { tid := some "TID_W", productionBuilding := some "Workshop",
                     levels := [{ laboratoryLevel := some 5 }] } }]).1.items
      = [{ id := 2000, name := "Wall Wrecker", labLevel := none,
           requiredThLevel := none, isLoaded := false }] ∧
    holder_get (load_json [] [] false [("TID_W", "Wall Wrecker")] []
        [{ supercellName := "Siege1",
           meta := { tid := some "TID_W", productionBuilding := some "Workshop",
                     levels := [{ laboratoryLevel := some 5 }] } }]).1
        "Wall Wrecker"
      = some { id := 2000, name := "Wall Wrecker", labLevel := none,
               requiredThLevel := none, isLoaded := false } := by
  refine ⟨by decide, by decide⟩

/-- C5: an entry hitting any of the skip rules — falsy `TID`, a
`Tutorial` internal name, `DisableProduction` outside the pets file,
`Deprecated`, or the fixed pet-exclusion list within the pets file —
contributes nothing to the load: removing it from the dataset leaves
the entire load result (ordered collection, name lookup, id
assignment, error outcome) unchanged, wherever it sits in the file.  In
particular a `Deprecated=true` entry never appears in registry
iteration and is never name-resolvable. -/
theorem skipped_entry_never_built
    (pf : Bool) (e : RawEntry)
    (hskip : skip_entry pf e = true) :
    ∀ (po : List String) (b : BuildingTable) (al : List (String × String))
      (lt : LabToTownhall) (id : Nat) (acc : Registry)
      (pre post : List RawEntry),
      load_json_aux po b pf al lt id acc (pre ++ e :: post)
        = load_json_aux po b pf al lt id acc (pre ++ post) := by
  intro po b al lt id acc pre post
  induction pre generalizing id acc with
  | nil => simp [load_json_aux, hskip]
  | cons hd tl ih =>
    simp only [List.cons_append, load_json_aux]
    by_cases hs : skip_entry pf hd
    · simp only [hs, if_true]
      exact ih id acc
    · simp only [hs, if_false]
      cases entry_load po b al lt id hd with
      | error err => rfl
      | ok t => exact ih (id + 1) (reg_add acc t)

/-- C5 witness: a deprecated entry sandwiched between two live ones
changes nothing about the load. -/
theorem skipped_entry_never_built_witness :
    load_json_aux [] [] false [("TID_A", "Alpha"), ("TID_C", "Gamma")] []
        2000 empty_registry
        [{ supercellName := "A",
           meta := { tid := some "TID_A", levels := [{ laboratoryLevel := some 1 }] } },
         { supercellName := "Old",
           meta := { tid := some "TID_O", deprecated := true,
                     levels := [{ laboratoryLevel := some 1 }] } },
         { supercellName := "C",
           meta := { tid := some "TID_C", levels := [{ laboratoryLevel := some 2 }] } }]
      = load_json_aux [] [] false [("TID_A", "Alpha"), ("TID_C", "Gamma")] []
          2000 empty_registry
          [{ supercellName := "A",
             meta := { tid := some "TID_A", levels := [{ laboratoryLevel := some 1 }] } },
           { supercellName := "C",
             meta := { tid := some "TID_C", levels := [{ laboratoryLevel := some 2 }] } }] :=
  skipped_entry_never_built false
    { supercellName := "Old",
      meta := { tid := some "TID_O", deprecated := true,
                levels := [{ laboratoryLevel := some 1 }] } }
    (by decide) [] [] [("TID_A", "Alpha"), ("TID_C", "Gamma")] [] 2000
    empty_registry
    [{ supercellName := "A",
       meta := { tid := some "TID_A", levels := [{ laboratoryLevel := some 1 }] } }]
    [{ supercellName := "C",
       meta := { tid := some "TID_C", levels := [{ laboratoryLevel := some 2 }] } }]

/-- C2 (amended): when the town-hall reverse lookup for a surviving
unit yields zero or several laboratory levels, `_load_json_meta` raises
the unpack `ValueError`, and `_load_json`, having no handler, stops
right there: the registry keeps exactly the entries already built
(their in-place registration persists), every later entry of the
dataset is never processed, and the surfaced error carries only the
number of matching laboratory levels — not the unit name or the target
town-hall level. -/
theorem ambiguous_mapping_aborts_load
    (po : List String) (b : BuildingTable) (pf : Bool)
    (al : List (String × String)) (lt : LabToTownhall)
    (id : Nat) (acc : Registry) (e : RawEntry) (es : List RawEntry)
    (tname name : String) (n : Nat)
    (hskip : skip_entry pf e = false)
    (htid : e.meta.tid = some tname)
    (hal : str_lookup al tname = some name)
    (herr : load_json_meta po b lt e.meta id name
      = .error (.unpackMismatch n)) :
    load_json_aux po b pf al lt id acc (e :: es)
      = (acc, some (.unpackMismatch n)) := by
  simp [load_json_aux, hskip, entry_load, htid, hal, herr]

/-- C2 witness: an ambiguous lab↔town-hall map (two laboratory levels
mapping to town-hall 5) stops the load at the offending barracks unit,
keeping the accumulated registry untouched and skipping the rest. -/
theorem ambiguous_mapping_aborts_load_witness :
    load_json_aux [] [("Barrack", [(1, some 5)])] false
        [("TID_B", "Bad Troop"), ("TID_C", "Gamma")] [(1, 5), (2, 5)] 2001
        (reg_add empty_registry { id := 2000, name := "Alpha" })
        [{ supercellName := "B",
           meta := { tid := some "TID_B", productionBuilding := some "Barrack",
                     barrackLevel := some 1,
                     levels := [{ laboratoryLevel := some 1 }] } },
         { supercellName := "C",
           meta := { tid := some "TID_C", levels := [{ laboratoryLevel := some 2 }] } }]
      = (reg_add empty_registry { id := 2000, name := "Alpha" },
         some (.unpackMismatch 2)) :=
  ambiguous_mapping_aborts_load [] [("Barrack", [(1, some 5)])] false
    [("TID_B", "Bad Troop"), ("TID_C", "Gamma")] [(1, 5), (2, 5)] 2001
    (reg_add empty_registry { id := 2000, name := "Alpha" })
    { supercellName := "B",
      meta := { tid := some "TID_B", productionBuilding := some "Barrack",
                barrackLevel := some 1,
                levels := [{ laboratoryLevel := some 1 }] } }
    [{ supercellName := "C",
       meta := { tid := some "TID_C", levels := [{ laboratoryLevel := some 2 }] } }]
    "TID_B" "Bad Troop" 2 (by decide) (by decide) (by decide) (by decide)

/-- C2 counterexample: a three-entry dataset whose middle unit has an
ambiguous town-hall reverse lookup.  Contrary to the claim, the failure
is not confined to that unit: the load stops with the unpack error, the
entry after it (`Gamma`) is never built or registered, and the error
value carries no unit name or town-hall level — only the match count. -/
theorem ambiguous_mapping_partial_load_cex :
    (load_json [] [("Barrack", [(1, some 5)])] false
        [("TID_A", "Alpha"), ("TID_B", "Bad Troop"), ("TID_C", "Gamma")]
        [(1, 5), (2, 5)]
        [{ supercellName := "A",
           meta := { tid := some "TID_A", levels := [{ laboratoryLevel := some 1 }] } },
         { supercellName := "B",
           meta := { tid := some "TID_B", productionBuilding := some "Barrack",
                     barrackLevel := some 1,
                     levels := [{ laboratoryLevel := some 1 }] } },
         { supercellName := "C",
           meta := { tid := some "TID_C", levels := [{ laboratoryLevel := some 2 }] } }]).2
      = some (.unpackMismatch 2) ∧
    (load_json [] [("Barrack", [(1, some 5)])] false
        [("TID_A", "Alpha"), ("TID_B", "Bad Troop"), ("TID_C", "Gamma")]
        [(1, 5), (2, 5)]
        [{ supercellName := "A",
           meta := { tid := some "TID_A", levels := [{ laboratoryLevel := some 1 }] } },
         { supercellName := "B",
           meta := { tid := some "TID_B", productionBuilding := some "Barrack",
                     barrackLevel := some 1,
                     levels := [{ laboratoryLevel := some 1 }] } },
         { supercellName := "C",
           meta := { tid := some "TID_C", levels := [{ laboratoryLevel := some 2 }] } }]).1.items.map
        Template.name
      = ["Alpha"] ∧
    holder_get (load_json [] [("Barrack", [(1, some 5)])] false
        [("TID_A", "Alpha"), ("TID_B", "Bad Troop"), ("TID_C", "Gamma")]
        [(1, 5), (2, 5)]
        [{ supercellName := "A",
           meta := { tid := some "TID_A", levels := [{ laboratoryLevel := some 1 }] } },
         { supercellName := "B",
           meta := { tid := some "TID_B", productionBuilding := some "Barrack",
                     barrackLevel := some 1,
                     levels := [{ laboratoryLevel := some 1 }] } },
         { supercellName := "C",
           meta := { tid := some "TID_C", levels := [{ laboratoryLevel := some 2 }] } }]).1
        "Gamma"
      = none := by
  refine ⟨by decide, by decide, by decide⟩

/-- Registry invariant: `_load_json` only ever registers a template
under the lower-casing of that template's own `name`, so every key of
`item_lookup` is the lower-cased name of the template it maps to. -/
theorem load_json_aux_lookup_keys
    (po : List String) (b : BuildingTable) (pf : Bool)
    (al : List (String × String)) (lt : LabToTownhall) :
    ∀ (entries : List RawEntry) (id : Nat) (acc : Registry),
      (∀ p ∈ acc.lookup, p.1 = to_lower p.2.name) →
      ∀ p ∈ (load_json_aux po b pf al lt id acc entries).1.lookup,
        p.1 = to_lower p.2.name := by
  intro entries
  induction entries with
  | nil => intro id acc h; simpa [load_json_aux] using h
  | cons e es ih =>
    intro id acc h
    rw [load_json_aux]
    by_cases hs : skip_entry pf e
    · rw [if_pos hs]
      exact ih id acc h
    · rw [if_neg hs]
      cases hel : entry_load po b al lt id e with
      | error err => exact fun p hp => h p hp
      | ok t =>
        refine ih (id + 1) (reg_add acc t) ?_
        intro p hp
        rcases List.mem_cons.mp hp with rfl | hp'
        · rfl
        · exact h p hp'

/-- C7: round-trip through the case-insensitive registry.  For any
query string: (i) whatever template `get` returns has a name that is
case-insensitively equal to the query; (ii) if the query
case-insensitively matches a registered key, `get` finds a template;
(iii) if no registered key matches, `get` returns the `none` sentinel
rather than failing. -/
theorem get_by_name_roundtrip
    (po : List String) (b : BuildingTable) (pf : Bool)
    (al : List (String × String)) (lt : LabToTownhall)
    (entries : List RawEntry) (q : String) :
    (∀ t, holder_get (load_json po b pf al lt entries).1 q = some t →
      to_lower t.name = to_lower q) ∧
    ((load_json po b pf al lt entries).1.lookup.any
        (fun p => p.1 == to_lower q) = true →
      (holder_get (load_json po b pf al lt entries).1 q).isSome = true) ∧
    ((load_json po b pf al lt entries).1.lookup.all
        (fun p => !(p.1 == to_lower q)) = true →
      holder_get (load_json po b pf al lt entries).1 q = none) := by
  have hinv : ∀ p ∈ (load_json po b pf al lt entries).1.lookup,
      p.1 = to_lower p.2.name :=
    load_json_aux_lookup_keys po b pf al lt entries 2000 empty_registry
      (by intro p hp; simp [empty_registry] at hp)
  refine ⟨?_, ?_, ?_⟩
  · intro t ht
    unfold holder_get ci_get at ht
    cases hf : (load_json po b pf al lt entries).1.lookup.find?
        (fun p => p.1 == to_lower q) with
    | none => rw [hf] at ht; cases ht
    | some p =>
      rw [hf] at ht
      simp only [Option.map_some', Option.some.injEq] at ht
      have h1 := List.find?_some hf
      have h2 := hinv p (List.mem_of_find?_eq_some hf)
      rw [← ht, ← h2]
      exact eq_of_beq h1
  · intro hany
    unfold holder_get ci_get
    rw [List.any_eq_true] at hany
    have hsome : ((load_json po b pf al lt entries).1.lookup.find?
        (fun p => p.1 == to_lower q)).isSome = true :=
      List.find?_isSome.mpr hany
    cases hf : (load_json po b pf al lt entries).1.lookup.find?
        (fun p => p.1 == to_lower q) with
    | none => rw [hf] at hsome; cases hsome
    | some p => rfl
  · intro hall
    unfold holder_get ci_get
    have hnone : (load_json po b pf al lt entries).1.lookup.find?
        (fun p => p.1 == to_lower q) = none := by
      rw [List.find?_eq_none]
      intro x hx
      have := List.all_eq_true.mp hall x hx
      simpa using this
    rw [hnone]
    rfl

/-- C7 witness: a registry holding `Knight` answers the query
`"kNIGHT"` with that template, and an unregistered name gives the
`none` sentinel. -/
theorem get_by_name_roundtrip_witness :
    (holder_get (load_json [] [] false [("TID_K", "Knight")] []
        [{ supercellName := "K",
           meta := { tid := some "TID_K",
                     levels := [{ laboratoryLevel := some 1 }] } }]).1
        "kNIGHT").isSome = true ∧
    holder_get (load_json [] [] false [("TID_K", "Knight")] []
        [{ supercellName := "K",
           meta := { tid := some "TID_K",
                     levels := [{ laboratoryLevel := some 1 }] } }]).1
        "Dragon" = none :=
  ⟨(get_by_name_roundtrip [] [] false [("TID_K", "Knight")] []
      [{ supercellName := "K",
         meta := { tid := some "TID_K",
                   levels := [{ laboratoryLevel := some 1 }] } }]
      "kNIGHT").2.1 (by decide),
   (get_by_name_roundtrip [] [] false [("TID_K", "Knight")] []
      [{ supercellName := "K",
         meta := { tid := some "TID_K",
                   levels := [{ laboratoryLevel := some 1 }] } }]
      "Dragon").2.2 (by decide)⟩

/-- Fusing the two maps in `floored_labs`. -/
theorem floored_labs_eq_map (meta : JsonMeta) (floor : Nat) :
    floored_labs meta floor
      = meta.levels.map (fun blk => some (max (blk.laboratoryLevel.getD 1) floor)) := by
  simp [floored_labs, raw_labs_d1, List.map_map]

/-- On either floor path — a barracks-family building with a truthy
`BarrackLevel`, or the pet shop — a successful `_load_json_meta` stores
the floor-corrected column `max(raw_lab_level, floor)`. -/
theorem load_json_meta_floor_path
    (po : List String) (b : BuildingTable) (lt : LabToTownhall)
    (meta : JsonMeta) (id : Nat) (name : String) (floor : Nat) (t : Template)
    (hok : load_json_meta po b lt meta id name = .ok t)
    (hpath :
      (∃ bld bl, effective_building po name meta.productionBuilding = some bld
        ∧ bld ∈ barracks_family ∧ meta.barrackLevel = some bl ∧ bl ≠ 0
        ∧ floor_barracks b lt bld bl = .ok floor)
      ∨ (effective_building po name meta.productionBuilding = some "Pet Shop"
        ∧ floor_pet b lt meta = .ok floor)) :
    t = finish_template id name (floored_labs meta floor) meta := by
  rcases hpath with ⟨bld, bl, hpb, hfam, hbl, hbl0, hfl⟩ | ⟨hpb, hfp⟩
  · have htr : pb_truthy (some bld) = true := by fin_cases hfam <;> decide
    obtain ⟨m, rfl⟩ := Nat.exists_eq_succ_of_ne_zero hbl0
    simp only [load_json_meta, hpb, htr, Bool.not_true, Bool.false_eq_true,
      if_false, Option.getD_some, hbl] at hok
    rw [if_pos (by simpa using hfam)] at hok
    rw [show floor_barracks b lt bld (m + 1) = .ok floor from hfl] at hok
    simp only [Bind.bind, Except.bind, Except.ok.injEq] at hok
    exact hok.symm
  · have hfam2 : ¬ (("Pet Shop" : String) ∈ barracks_family) := by decide
    cases hpl : pet_labs floor meta.levels with
    | error err =>
      simp only [load_json_meta, hpb] at hok
      rw [if_neg (by decide), if_neg (by simpa using hfam2),
        if_pos (by decide), hfp] at hok
      simp only [Bind.bind, Except.bind] at hok
      rw [hpl] at hok
      cases hok
    | ok labs =>
      simp only [load_json_meta, hpb] at hok
      rw [if_neg (by decide), if_neg (by simpa using hfam2),
        if_pos (by decide), hfp] at hok
      simp only [Bind.bind, Except.bind] at hok
      rw [hpl] at hok
      simp only [Except.ok.injEq] at hok
      rw [← hok, pet_labs_eq_floored floor meta.levels labs hpl,
        floored_labs_eq_map]

/-- C1 (amended): for a template built through a floor path (barracks
family with truthy `BarrackLevel`, or pet shop), the stored laboratory
series is `max(raw_lab_level[i], floor_level)` at every level `i` of
the defined range (on the barracks path a missing per-level value
defaults to `1`; on the pet path it would instead abort the unit's
load), hence every entry is `≥ floor_level`; and the series is
non-decreasing *whenever the raw column is non-decreasing* — the code
only corrects values below the floor, so a decreasing raw segment above
the floor survives (see the counterexample). -/
theorem lab_floor_correction_amended
    (po : List String) (b : BuildingTable) (lt : LabToTownhall)
    (meta : JsonMeta) (id : Nat) (name : String) (floor : Nat) (t : Template)
    (hok : load_json_meta po b lt meta id name = .ok t)
    (hpath :
      (∃ bld bl, effective_building po name meta.productionBuilding = some bld
        ∧ bld ∈ barracks_family ∧ meta.barrackLevel = some bl ∧ bl ≠ 0
        ∧ floor_barracks b lt bld bl = .ok floor)
      ∨ (effective_building po name meta.productionBuilding = some "Pet Shop"
        ∧ floor_pet b lt meta = .ok floor)) :
    t.labLevel = try_enum_stat (floored_labs meta floor) ∧
    (∀ i, 1 ≤ i → i ≤ meta.levels.length →
      ∃ r, (raw_labs_d1 meta).get? (i - 1) = some r ∧
        lab_at t i = some (some (max r floor)) ∧ floor ≤ max r floor) ∧
    (List.Chain' (· ≤ ·) (raw_labs_d1 meta) →
      List.Chain' (· ≤ ·) ((raw_labs_d1 meta).map (fun r => max r floor))) := by
  have ht := load_json_meta_floor_path po b lt meta id name floor t hok hpath
  subst ht
  have hlen1 : (raw_labs_d1 meta).length = meta.levels.length := by
    simp [raw_labs_d1]
  have hlen2 : (floored_labs meta floor).length = meta.levels.length := by
    simp [floored_labs, raw_labs_d1]
  refine ⟨rfl, ?_, ?_⟩
  · intro i h1 h2
    have henum : try_enum_stat (floored_labs meta floor)
        = some (floored_labs meta floor) := by
      have hne : (floored_labs meta floor).all (·.isNone) = false := by
        cases hl : meta.levels with
        | nil =>
          exfalso
          rw [hl] at h2
          simp at h2
          omega
        | cons blk rest => simp [floored_labs, raw_labs_d1, hl]
      simp [try_enum_stat, hne]
    cases hr : (raw_labs_d1 meta).get? (i - 1) with
    | none =>
      exfalso
      rw [List.get?_eq_none] at hr
      omega
    | some r =>
      refine ⟨r, rfl, ?_, le_max_right r floor⟩
      have hat : lab_at (finish_template id name (floored_labs meta floor) meta) i
          = series_at (floored_labs meta floor) i := by
        simp [lab_at, finish_template, henum]
      rw [hat, series_at, if_pos ⟨h1, by omega⟩]
      have : (floored_labs meta floor).get? (i - 1)
          = ((raw_labs_d1 meta).get? (i - 1)).map (fun r => some (max r floor)) := by
        simp [floored_labs, List.getElem?_map, List.get?_eq_getElem?]
      rw [this, hr]
      rfl
  · intro hchain
    exact List.chain'_map_of_chain' _ (fun a c hac => max_le_max hac le_rfl) hchain

/-- C1 witness: the spec's own scenario — `BarrackLevel = 6`, building
level 6 requires town-hall 9, laboratory 5 maps to town-hall 9, raw
column `[3,4,4,5,5,5]` — yields the corrected series `[5,5,5,5,5,5]`. -/
theorem lab_floor_correction_amended_witness :
    Template.labLevel
        { id := 2000, name := "Dragon",
          labLevel := some [some 5, some 5, some 5, some 5, some 5, some 5],
          requiredThLevel := some [some 5, some 5, some 5, some 5, some 5, some 5],
          isLoaded := true }
      = try_enum_stat (floored_labs
          { productionBuilding := some "Barrack", barrackLevel := some 6,
            levels := [{ laboratoryLevel := some 3 }, { laboratoryLevel := some 4 },
                       { laboratoryLevel := some 4 }, { laboratoryLevel := some 5 },
                       { laboratoryLevel := some 5 }, { laboratoryLevel := some 5 }] }
          5) :=
  (lab_floor_correction_amended [] [("Barrack", [(6, some 9)])] [(5, 9)]
    { productionBuilding := some "Barrack", barrackLevel := some 6,
      levels := [{ laboratoryLevel := some 3 }, { laboratoryLevel := some 4 },
                 { laboratoryLevel := some 4 }, { laboratoryLevel := some 5 },
                 { laboratoryLevel := some 5 }, { laboratoryLevel := some 5 }] }
    2000 "Dragon" 5
    { id := 2000, name := "Dragon",
      labLevel := some [some 5, some 5, some 5, some 5, some 5, some 5],
      requiredThLevel := some [some 5, some 5, some 5, some 5, some 5, some 5],
      isLoaded := true }
    (by decide)
    (Or.inl ⟨"Barrack", 6, by decide, by decide, rfl, by decide, by decide⟩)).1

/-- C1 counterexample: the floor correction does not make the series
non-decreasing.  With floor 2 and raw column `[5, 3]` the stored series
is `[5, 3]`: each entry is `max(raw, floor)` and `≥ floor`, but the
series strictly decreases from level 1 to level 2, falsifying the
claim's "non-decreasing in i". -/
theorem lab_series_not_monotone_cex :
    load_json_meta [] [("Barrack", [(1, some 2)])] [(2, 2)]
        { productionBuilding := some "Barrack", barrackLevel := some 1,
          levels := [{ laboratoryLevel := some 5 }, { laboratoryLevel := some 3 }] }
        2000 "Siege"
      = .ok { id := 2000, name := "Siege", labLevel := some [some 5, some 3],
              requiredThLevel := some [some 5, some 3], isLoaded := true } ∧
    lab_at { id := 2000, name := "Siege", labLevel := some [some 5, some 3],
             requiredThLevel := some [some 5, some 3], isLoaded := true } 1
      = some (some 5) ∧
    lab_at { id := 2000, name := "Siege", labLevel := some [some 5, some 3],
             requiredThLevel := some [some 5, some 3], isLoaded := true } 2
      = some (some 3) ∧
    ¬ List.Chain' (· ≤ ·)
        ((raw_labs_d1
            { productionBuilding := some "Barrack", barrackLevel := some 1,
              levels := [{ laboratoryLevel := some 5 },
                         { laboratoryLevel := some 3 }] }).map
          (fun r => max r 2)) := by
  refine ⟨by decide, by decide, by decide, ?_⟩
  simp [raw_labs_d1, List.chain'_cons]
